import Mathlib

/-!
Verification of the storage core of the SQLite-clone in `src/main.c`, via a
shallow embedding.  Pure functions of the C source become Lean functions;
the pager / B+tree state becomes explicit state passing on a `Table` record;
machine integers become `Nat` (all relevant quantities stay far below 2^32,
the single 32-bit wrap-around that matters — `INVALID_PAGE_NUM = UINT32_MAX`
— is spelled out as `2^32 - 1`); fatal `exit(...)` branches become an
`Except Fatal` error; C strings become 0-free `List Nat` of their bytes.

The model describes a session opened on an empty database file (as produced
by `db_open` on a fresh file): `pager_open` then yields `file_length = 0`,
so `get_page` never copies bytes from disk and a page miss installs a fresh
(malloc'd, uninitialized) page, modelled by `Node.uninit`.
-/

set_option maxRecDepth 10000

/-! ## Compile-time constants (src/main.c lines 47-117) -/

def COLUMN_USERNAME_SIZE : Nat := 32
def COLUMN_EMAIL_SIZE : Nat := 255
def TABLE_MAX_PAGES : Nat := 100
/-- `UINT32_MAX`, the "no child / empty internal" sentinel. -/
def INVALID_PAGE_NUM : Nat := 2 ^ 32 - 1
def PAGE_SIZE : Nat := 4096

/-- `sizeof(((Row*)0)->id)` = 4. -/
def ID_SIZE : Nat := 4
/-- `sizeof(((Row*)0)->username)` = `COLUMN_USERNAME_SIZE + 1` = 33
(the field is declared `char username[COLUMN_USERNAME_SIZE + 1]`). -/
def USERNAME_SIZE : Nat := COLUMN_USERNAME_SIZE + 1
/-- `sizeof(((Row*)0)->email)` = `COLUMN_EMAIL_SIZE + 1` = 256. -/
def EMAIL_SIZE : Nat := COLUMN_EMAIL_SIZE + 1
def ID_OFFSET : Nat := 0
def USERNAME_OFFSET : Nat := ID_OFFSET + ID_SIZE
def EMAIL_OFFSET : Nat := USERNAME_OFFSET + USERNAME_SIZE
def ROW_SIZE : Nat := ID_SIZE + USERNAME_SIZE + EMAIL_SIZE

def NODE_TYPE_SIZE : Nat := 1
def IS_ROOT_SIZE : Nat := 1
def PARENT_POINTER_SIZE : Nat := 4
def COMMON_NODE_HEADER_SIZE : Nat := NODE_TYPE_SIZE + IS_ROOT_SIZE + PARENT_POINTER_SIZE

def LEAF_NODE_NUM_CELLS_SIZE : Nat := 4
def LEAF_NODE_NUM_CELLS_OFFSET : Nat := COMMON_NODE_HEADER_SIZE
def LEAF_NODE_NEXT_LEAF_SIZE : Nat := 4
def LEAF_NODE_NEXT_LEAF_OFFSET : Nat := LEAF_NODE_NUM_CELLS_OFFSET + LEAF_NODE_NUM_CELLS_SIZE
def LEAF_NODE_HEADER_SIZE : Nat :=
  COMMON_NODE_HEADER_SIZE + LEAF_NODE_NUM_CELLS_SIZE + LEAF_NODE_NEXT_LEAF_SIZE

def LEAF_NODE_KEY_SIZE : Nat := 4
def LEAF_NODE_KEY_OFFSET : Nat := 0
def LEAF_NODE_VALUE_SIZE : Nat := ROW_SIZE
def LEAF_NODE_VALUE_OFFSET : Nat := LEAF_NODE_KEY_OFFSET + LEAF_NODE_KEY_SIZE
def LEAF_NODE_CELL_SIZE : Nat := LEAF_NODE_KEY_SIZE + LEAF_NODE_VALUE_SIZE
def LEAF_NODE_SPACE_FOR_CELLS : Nat := PAGE_SIZE - LEAF_NODE_HEADER_SIZE
def LEAF_NODE_MAX_CELLS : Nat := LEAF_NODE_SPACE_FOR_CELLS / LEAF_NODE_CELL_SIZE
def LEAF_NODE_RIGHT_SPLIT_COUNT : Nat := (LEAF_NODE_MAX_CELLS + 1) / 2
def LEAF_NODE_LEFT_SPLIT_COUNT : Nat := (LEAF_NODE_MAX_CELLS + 1) - LEAF_NODE_RIGHT_SPLIT_COUNT

def INTERNAL_NODE_NUM_KEYS_SIZE : Nat := 4
def INTERNAL_NODE_NUM_KEYS_OFFSET : Nat := COMMON_NODE_HEADER_SIZE
def INTERNAL_NODE_RIGHT_CHILD_SIZE : Nat := 4
def INTERNAL_NODE_RIGHT_CHILD_OFFSET : Nat :=
  INTERNAL_NODE_NUM_KEYS_OFFSET + INTERNAL_NODE_NUM_KEYS_SIZE
def INTERNAL_NODE_HEADER_SIZE : Nat :=
  INTERNAL_NODE_NUM_KEYS_SIZE + INTERNAL_NODE_RIGHT_CHILD_SIZE + COMMON_NODE_HEADER_SIZE
def INTERNAL_NODE_KEY_SIZE : Nat := 4
def INTERNAL_NODE_CHILD_SIZE : Nat := 4
def INTERNAL_NODE_CELL_SIZE : Nat := INTERNAL_NODE_CHILD_SIZE + INTERNAL_NODE_KEY_SIZE
def INTERNAL_NODE_MAX_CELLS : Nat := 3

/-! ## Rows and their serialization (src/main.c lines 50-54, 363-373)

A C string is modelled by the list of its bytes up to (excluding) the
terminating NUL, so it never contains a 0 byte.  `Row.username` / `Row.email`
model the C-string value held in the fixed `char[33]` / `char[256]` buffers. -/

structure Row where
  id : Nat
  username : List Nat
  email : List Nat
deriving DecidableEq, Repr

/-- The four bytes of a `uint32_t` as `memcpy` lays them out (host order;
little-endian, as on the archs this code runs on). -/
def u32_bytes (n : Nat) : List Nat :=
  [n % 256, n / 256 % 256, n / 256 ^ 2 % 256, n / 256 ^ 3 % 256]

/-- Reassemble a `uint32_t` from its four bytes (the `memcpy` in
`deserialize_row` read back through the `uint32_t id` field). -/
def u32_of_bytes (l : List Nat) : Nat :=
  l.getD 0 0 + 256 * l.getD 1 0 + 256 ^ 2 * l.getD 2 0 + 256 ^ 3 * l.getD 3 0

/-- `strncpy(dest, src, n)`: copies bytes of `src` up to the NUL, at most `n`;
if `src` is shorter than `n` the remainder of `dest` is zero-filled. -/
def strncpy_bytes (src : List Nat) (n : Nat) : List Nat :=
  src.take n ++ List.replicate (n - src.length) 0

/-- `serialize_row` (lines 363-367): `id` at `ID_OFFSET`,
`strncpy` of username (33 bytes) at `USERNAME_OFFSET`,
`strncpy` of email (256 bytes) at `EMAIL_OFFSET`. -/
def serialize_row (row : Row) : List Nat :=
  u32_bytes row.id ++ strncpy_bytes row.username USERNAME_SIZE
    ++ strncpy_bytes row.email EMAIL_SIZE

/-- The C-string value of a fixed-width buffer: bytes before the first NUL. -/
def cstring_of (l : List Nat) : List Nat := l.takeWhile (fun b => b ≠ 0)

/-- `deserialize_row` (lines 369-373): `memcpy` the three fields back out of
the 293-byte image; the string fields are read as the C strings held in the
copied buffers. -/
def deserialize_row (source : List Nat) : Row :=
  { id := u32_of_bytes ((source.drop ID_OFFSET).take ID_SIZE)
  , username := cstring_of ((source.drop USERNAME_OFFSET).take USERNAME_SIZE)
  , email := cstring_of ((source.drop EMAIL_OFFSET).take EMAIL_SIZE) }

/-! ## The parser (src/main.c lines 18-45, 614-659)

An input line is the 0-free byte list `getline` produced (newline stripped). -/

inductive PrepareResult where
  | PREPARE_SUCCESS
  | PREPARE_NEGATIVE_ID
  | PREPARE_STRING_TOO_LONG
  | PREPARE_UNRECOGNIZED
  | PREPARE_SYNTAX_ERROR
deriving DecidableEq, Repr

inductive StatementType where
  | STATEMENT_INSERT
  | STATEMENT_SELECT
deriving DecidableEq, Repr

structure Statement where
  type : StatementType
  row : Row
deriving DecidableEq, Repr

/-- `strncmp(a, b, n) == 0`: the comparison walks at most `n` bytes and stops
early at a NUL (= end of the modelled string) or at the first difference. -/
def cstrncmp_eq : List Nat → List Nat → Nat → Bool
  | _, _, 0 => true
  | [], [], _ + 1 => true
  | [], _ :: _, _ + 1 => false
  | _ :: _, [], _ + 1 => false
  | a :: as, b :: bs, n + 1 => a = b && (a = 0 || cstrncmp_eq as bs n)

/-- `strcmp(a, b) == 0`. -/
def cstrcmp_eq : List Nat → List Nat → Bool
  | [], [] => true
  | [], _ :: _ => false
  | _ :: _, [] => false
  | a :: as, b :: bs => a = b && (a = 0 || cstrcmp_eq as bs)

/-- The successive `strtok(·, " ")` tokens of a line: maximal runs of
non-space bytes (leading, trailing and repeated delimiters are skipped). -/
def strtok_tokens (input : List Nat) : List (List Nat) :=
  (input.splitOn 32).filter (fun tok => tok ≠ [])

/-- `isspace` on the bytes `atoi` skips: space and `\t \n \v \f \r`. -/
def isspace_c (c : Nat) : Bool := c = 32 || (9 ≤ c && c ≤ 13)

def is_digit_c (c : Nat) : Bool := 48 ≤ c && c ≤ 57

/-- The value of the maximal leading digit run. -/
def digits_val : List Nat → Nat → Nat
  | [], acc => acc
  | c :: cs, acc => if is_digit_c c then digits_val cs (acc * 10 + (c - 48)) else acc

/-- C `atoi`: skip whitespace, then an optional sign, then leading digits;
no digits yields 0.  (Inputs stay far below `INT_MAX`, so the undefined
overflow behaviour of `atoi` is never exercised.) -/
def atoi_c (s : List Nat) : Int :=
  match s.dropWhile isspace_c with
  | 45 :: rest => -(digits_val rest 0 : Int)
  | 43 :: rest => (digits_val rest 0 : Int)
  | rest => (digits_val rest 0 : Int)

/-- The body of `prepare_insert` after its four `strtok` calls: a missing
token is a syntax error; then `atoi` the id token, reject a negative id,
then over-long strings, else build the statement.  The C
`statement->row.id = id` converts `int` to `uint32_t`; after the `id < 0`
check the value is the non-negative `id` itself. -/
def prepare_insert_tokens : List (List Nat) → PrepareResult × Option Statement
  | _keyword :: id_string :: username :: email :: _ =>
    if atoi_c id_string < 0 then (.PREPARE_NEGATIVE_ID, none)
    else if username.length > COLUMN_USERNAME_SIZE then (.PREPARE_STRING_TOO_LONG, none)
    else if email.length > COLUMN_EMAIL_SIZE then (.PREPARE_STRING_TOO_LONG, none)
    else (.PREPARE_SUCCESS,
      some { type := .STATEMENT_INSERT
           , row := { id := (atoi_c id_string).toNat, username := username, email := email } })
  | _ => (.PREPARE_SYNTAX_ERROR, none)

/-- `prepare_insert` (lines 614-645): tokenize with `strtok(·, " ")`, then
parse the tokens. -/
def prepare_insert (input : List Nat) : PrepareResult × Option Statement :=
  prepare_insert_tokens (strtok_tokens input)

def insert_keyword : List Nat := [105, 110, 115, 101, 114, 116]
def select_keyword : List Nat := [115, 101, 108, 101, 99, 116]

/-- A `select` statement as built by `prepare_statement` (the row is the
uninitialized `Statement.row`; it is never read, `execute_select` ignores the
statement; the model fixes the junk to the all-zero row). -/
def select_statement : Statement := { type := .STATEMENT_SELECT, row := ⟨0, [], []⟩ }

/-- `prepare_statement` (lines 647-659): dispatch on a 6-byte prefix match
for `insert`, else on whole-line equality with `select`. -/
def prepare_statement (input : List Nat) : PrepareResult × Option Statement :=
  if cstrncmp_eq input insert_keyword 6 then prepare_insert input
  else if cstrcmp_eq input select_keyword then (.PREPARE_SUCCESS, some select_statement)
  else (.PREPARE_UNRECOGNIZED, none)

/-! ## Pages, nodes and the pager (src/main.c lines 42-45, 120-137, 221-253)

A 4096-byte page is modelled structurally by `Node`.  A freshly `malloc`'d
page whose bytes were never written is `Node.uninit`.  Leaf cells are
`(key, 293 serialized row bytes)` pairs; internal cells are
`(child page, key)` pairs, in slot order.  A cell list entry at index `i`
models cell slot `i` of the page body; slots never yet written are absent
from the list and read back as the fixed junk value `cellPad` / `(0, 0)`
(in C their bytes are simply whatever was in the buffer). -/

inductive NodeType where
  | NODE_INTERNAL
  | NODE_LEAF
deriving DecidableEq, Repr

abbrev Cell := Nat × List Nat

def cellPad : Cell := (0, [])

/-- Write slot `i` of a slot list, padding never-written smaller slots. -/
def setSlot {α : Type} (pad : α) : List α → Nat → α → List α
  | _ :: rest, 0, v => v :: rest
  | [], 0, v => [v]
  | x :: rest, i + 1, v => x :: setSlot pad rest i v
  | [], i + 1, v => pad :: setSlot pad [] i v

inductive Node where
  | uninit
  | leaf (is_root : Bool) (parent : Nat) (num_cells : Nat) (next_leaf : Nat)
      (cells : List Cell)
  | internal (is_root : Bool) (parent : Nat) (num_keys : Nat) (right_child : Nat)
      (cells : List (Nat × Nat))
deriving DecidableEq, Repr

/-- Fatal conditions: in C each of these prints a diagnostic and `exit`s
(or, for `assertFailed`, aborts).  `unspecifiedRead` marks a read of bytes
the C program never initialized, whose value the model does not fix;
`typeConfusion` a field access whose byte offset has no meaning for the
node kind actually stored there; `outOfFuel` exhaustion of the fuel that
bounds the source's recursions and loops. -/
inductive Fatal where
  | pageOutOfBounds (page_num : Nat)
  | childOutOfRange (child_num num_keys : Nat)
  | invalidPageAccess
  | typeConfusion
  | unspecifiedRead
  | assertFailed
  | outOfFuel
deriving DecidableEq, Repr

structure Pager where
  num_pages : Nat
  pages : List (Nat × Node)
deriving DecidableEq, Repr

structure Table where
  root_page_num : Nat
  pager : Pager
deriving DecidableEq, Repr

structure Cursor where
  page_num : Nat
  cell_num : Nat
  end_of_table : Bool
deriving DecidableEq, Repr

inductive ExecuteResult where
  | EXECUTE_SUCCESS
  | EXECUTE_DUPLICATE_KEY
  | EXECUTE_TABLE_FULL
deriving DecidableEq, Repr

def pageLookup : List (Nat × Node) → Nat → Option Node
  | [], _ => none
  | (k, node) :: rest, p => if k = p then some node else pageLookup rest p

def pageStore : List (Nat × Node) → Nat → Node → List (Nat × Node)
  | [], p, v => [(p, v)]
  | (k, node) :: rest, p, v =>
    if k = p then (p, v) :: rest else (k, node) :: pageStore rest p v

/-- `get_page` (lines 221-253) for a session opened on an empty file
(`file_length = 0`, so the body's read-from-disk step copies nothing and a
missed slot is installed holding the raw `malloc` buffer).  The out-of-bounds
guard is the source's `page_num > TABLE_MAX_PAGES` — strict. -/
def get_page (pager : Pager) (page_num : Nat) : Except Fatal (Node × Pager) :=
  if page_num > TABLE_MAX_PAGES then .error (.pageOutOfBounds page_num)
  else
    match pageLookup pager.pages page_num with
    | some node => .ok (node, pager)
    | none =>
      let node := Node.uninit
      let pages := pageStore pager.pages page_num node
      let num_pages :=
        if page_num ≥ pager.num_pages then page_num + 1 else pager.num_pages
      .ok (node, { num_pages := num_pages, pages := pages })

def getPageT (t : Table) (page_num : Nat) : Except Fatal (Node × Table) :=
  match get_page t.pager page_num with
  | .ok (node, pager) => .ok (node, { t with pager := pager })
  | .error e => .error e

def putPageT (t : Table) (page_num : Nat) (node : Node) : Table :=
  { t with pager := { t.pager with pages := pageStore t.pager.pages page_num node } }

/-- `get_unused_page_num` (lines 661-665). -/
def get_unused_page_num (t : Table) : Nat × Table :=
  (t.pager.num_pages,
   { t with pager := { t.pager with num_pages := t.pager.num_pages + 1 } })

/-! ## Node header accessors (lines 142-219, 344-357) -/

def get_node_type : Node → Except Fatal NodeType
  | .leaf .. => .ok .NODE_LEAF
  | .internal .. => .ok .NODE_INTERNAL
  | .uninit => .error .unspecifiedRead

def is_node_root : Node → Except Fatal Bool
  | .leaf r .. => .ok r
  | .internal r .. => .ok r
  | .uninit => .error .unspecifiedRead

def set_node_root (node : Node) (is_root : Bool) : Node :=
  match node with
  | .leaf _ par nc nxt cells => .leaf is_root par nc nxt cells
  | .internal _ par nk rc cells => .internal is_root par nk rc cells
  | .uninit => .uninit

/-- The bytes at `PARENT_POINTER_OFFSET`, total (a raw `malloc` page reads
back the model's fixed junk 0; such a read only happens inside
`init_leaf_node` / `init_internal_node`, which keep the stale parent field). -/
def parent_bytes : Node → Nat
  | .leaf _ par _ _ _ => par
  | .internal _ par _ _ _ => par
  | .uninit => 0

def node_parent_read : Node → Except Fatal Nat
  | .leaf _ par _ _ _ => .ok par
  | .internal _ par _ _ _ => .ok par
  | .uninit => .error .unspecifiedRead

/-- `*node_parent(page) = v`. -/
def node_parent_write (t : Table) (page_num v : Nat) : Except Fatal Table := do
  let (node, t) ← getPageT t page_num
  match node with
  | .leaf r _ nc nxt cells => .ok (putPageT t page_num (.leaf r v nc nxt cells))
  | .internal r _ nk rc cells => .ok (putPageT t page_num (.internal r v nk rc cells))
  | .uninit => .error .unspecifiedRead

/-- `*leaf_node_num_cells(node)` read.  `LEAF_NODE_NUM_CELLS_OFFSET` and
`INTERNAL_NODE_NUM_KEYS_OFFSET` are both `COMMON_NODE_HEADER_SIZE` = 6, so
on an internal node these four bytes hold `num_keys` — `execute_insert`
performs exactly this read on a root that may be internal. -/
def leaf_node_num_cells_read : Node → Except Fatal Nat
  | .leaf _ _ nc _ _ => .ok nc
  | .internal _ _ nk _ _ => .ok nk
  | .uninit => .error .unspecifiedRead

/-- `*leaf_node_key(node, i)` read, at byte offset `14 + 297·i`.  On an
internal node offset 14 is `INTERNAL_NODE_HEADER_SIZE`, i.e. the child page
number of internal cell 0 — again a read `execute_insert` really performs.
For `i ≥ 1` the offset lands mid-cell inside stale internal body bytes; no
execution of the model evaluates it, and its value is left unspecified. -/
def leaf_node_key_read : Node → Nat → Except Fatal Nat
  | .leaf _ _ _ _ cells, i => .ok (cells.getD i cellPad).1
  | .internal _ _ _ _ cells, 0 => .ok (cells.getD 0 (0, 0)).1
  | .internal _ _ _ _ _, _ + 1 => .error .unspecifiedRead
  | .uninit, _ => .error .unspecifiedRead

def leaf_node_value_read : Node → Nat → Except Fatal (List Nat)
  | .leaf _ _ _ _ cells, i => .ok (cells.getD i cellPad).2
  | _, _ => .error .typeConfusion

/-- `*leaf_node_next_leaf(node)` read.  `LEAF_NODE_NEXT_LEAF_OFFSET` and
`INTERNAL_NODE_RIGHT_CHILD_OFFSET` are both 10, hence the aliasing. -/
def leaf_node_next_leaf_read : Node → Except Fatal Nat
  | .leaf _ _ _ nxt _ => .ok nxt
  | .internal _ _ _ rc _ => .ok rc
  | .uninit => .error .unspecifiedRead

def internal_node_num_keys_read : Node → Except Fatal Nat
  | .internal _ _ nk _ _ => .ok nk
  | _ => .error .typeConfusion

def internal_node_num_keys_write (t : Table) (page_num v : Nat) : Except Fatal Table := do
  let (node, t) ← getPageT t page_num
  match node with
  | .internal r par _ rc cells => .ok (putPageT t page_num (.internal r par v rc cells))
  | _ => .error .typeConfusion

def internal_node_right_child_read : Node → Except Fatal Nat
  | .internal _ _ _ rc _ => .ok rc
  | _ => .error .typeConfusion

def internal_node_right_child_write (t : Table) (page_num v : Nat) : Except Fatal Table := do
  let (node, t) ← getPageT t page_num
  match node with
  | .internal r par nk _ cells => .ok (putPageT t page_num (.internal r par nk v cells))
  | _ => .error .typeConfusion

/-- `internal_node_child` (lines 178-203) used as a read: bounds check
against `num_keys`, `INVALID_PAGE_NUM` checks, `right_child` for
`child_num == num_keys`. -/
def internal_node_child_read (node : Node) (child_num : Nat) : Except Fatal Nat :=
  match node with
  | .internal _ _ num_keys right_child cells =>
    if child_num > num_keys then .error (.childOutOfRange child_num num_keys)
    else if child_num = num_keys then
      if right_child = INVALID_PAGE_NUM then .error .invalidPageAccess
      else .ok right_child
    else
      let c := (cells.getD child_num (0, 0)).1
      if c = INVALID_PAGE_NUM then .error .invalidPageAccess else .ok c
  | _ => .error .typeConfusion

/-- `*internal_node_child(page, child_num) = v`: the lvalue goes through the
same checks (on the slot's current contents) before the store. -/
def internal_node_child_write (t : Table) (page_num child_num v : Nat) :
    Except Fatal Table := do
  let (node, t) ← getPageT t page_num
  match node with
  | .internal r par num_keys right_child cells =>
    if child_num > num_keys then .error (.childOutOfRange child_num num_keys)
    else if child_num = num_keys then
      if right_child = INVALID_PAGE_NUM then .error .invalidPageAccess
      else .ok (putPageT t page_num (.internal r par num_keys v cells))
    else
      let cur := cells.getD child_num (0, 0)
      if cur.1 = INVALID_PAGE_NUM then .error .invalidPageAccess
      else .ok (putPageT t page_num
        (.internal r par num_keys right_child (setSlot (0, 0) cells child_num (v, cur.2))))
  | _ => .error .typeConfusion

/-- `*internal_node_key(page, key_num) = v` (line 205; unchecked). -/
def internal_node_key_write (t : Table) (page_num key_num v : Nat) :
    Except Fatal Table := do
  let (node, t) ← getPageT t page_num
  match node with
  | .internal r par nk rc cells =>
    let cur := cells.getD key_num (0, 0)
    .ok (putPageT t page_num (.internal r par nk rc (setSlot (0, 0) cells key_num (cur.1, v))))
  | _ => .error .typeConfusion

/-- `init_internal_node` (lines 344-350): kind, non-root, `num_keys = 0`,
`right_child = INVALID_PAGE_NUM`; the parent field and body bytes are left
as they were (the model clears the never-yet-written slot list). -/
def init_internal_node (node : Node) : Node :=
  .internal false (parent_bytes node) 0 INVALID_PAGE_NUM []

/-- `init_leaf_node` (lines 352-357): kind, non-root, `num_cells = 0`, and —
as literally written in the source — `next_leaf = INVALID_PAGE_NUM`. -/
def init_leaf_node (node : Node) : Node :=
  .leaf false (parent_bytes node) 0 INVALID_PAGE_NUM []

/-- `get_node_max_key` (lines 255-268): last leaf key (0 if empty), else
recurse into the right child.  Fuel bounds the recursion depth. -/
def get_node_max_key : Nat → Table → Node → Except Fatal (Nat × Table)
  | _, t, .leaf _ _ nc _ cells =>
    if nc = 0 then .ok (0, t) else .ok ((cells.getD (nc - 1) cellPad).1, t)
  | 0, _, .internal .. => .error .outOfFuel
  | fuel + 1, t, .internal _ _ _ rc _ => do
    let (right_child, t) ← getPageT t rc
    get_node_max_key fuel t right_child
  | _, _, .uninit => .error .unspecifiedRead

/-! ## Lookup (src/main.c lines 270-337, 375-394) -/

/-- The binary-search loop of `leaf_node_find` (lines 282-296). -/
def leaf_node_find_go (cells : List Cell) (key : Nat) : Nat → Nat → Nat → Except Fatal Nat
  | 0, _, _ => .error .outOfFuel
  | fuel + 1, mn, mx =>
    if mx ≠ mn then
      let index := (mn + mx) / 2
      let key_at_index := (cells.getD index cellPad).1
      if key = key_at_index then .ok index
      else if key < key_at_index then leaf_node_find_go cells key fuel mn index
      else leaf_node_find_go cells key fuel (index + 1) mx
    else .ok mn

/-- `leaf_node_find` (lines 270-300).  The returned cursor's `end_of_table`
is uninitialized in C (`malloc` junk, fixed to `false` by the model; it is
never read before `table_start` overwrites it). -/
def leaf_node_find (fuel : Nat) (t : Table) (page_num key : Nat) :
    Except Fatal (Cursor × Table) := do
  let (node, t) ← getPageT t page_num
  match node with
  | .leaf _ _ num_cells _ cells => do
    let cell_num ← leaf_node_find_go cells key fuel 0 num_cells
    .ok ({ page_num := page_num, cell_num := cell_num, end_of_table := false }, t)
  | _ => .error .typeConfusion

/-- The binary-search loop of `internal_node_find_child` (lines 306-321). -/
def internal_node_find_child_go (cells : List (Nat × Nat)) (key : Nat) :
    Nat → Nat → Nat → Except Fatal Nat
  | 0, _, _ => .error .outOfFuel
  | fuel + 1, mn, mx =>
    if mn ≠ mx then
      let mid := (mn + mx) / 2
      let key_to_right := (cells.getD mid (0, 0)).2
      if key_to_right ≥ key then internal_node_find_child_go cells key fuel mn mid
      else internal_node_find_child_go cells key fuel (mid + 1) mx
    else .ok mn

/-- `internal_node_find_child` (lines 302-322): smallest index whose key is
`≥ key`, else `num_keys`. -/
def internal_node_find_child (fuel : Nat) (node : Node) (key : Nat) : Except Fatal Nat :=
  match node with
  | .internal _ _ num_keys _ cells => internal_node_find_child_go cells key fuel 0 num_keys
  | _ => .error .typeConfusion

/-- `internal_node_find` (lines 324-337). -/
def internal_node_find : Nat → Table → Nat → Nat → Except Fatal (Cursor × Table)
  | 0, _, _, _ => .error .outOfFuel
  | fuel + 1, t, page_num, key => do
    let (node, t) ← getPageT t page_num
    let child_index ← internal_node_find_child fuel node key
    let child_num ← internal_node_child_read node child_index
    let (child, t) ← getPageT t child_num
    match child with
    | .internal .. => internal_node_find fuel t child_num key
    | .leaf .. => leaf_node_find fuel t child_num key
    | .uninit => .error .unspecifiedRead

/-- `table_find` (lines 375-384). -/
def table_find (fuel : Nat) (t : Table) (key : Nat) : Except Fatal (Cursor × Table) := do
  let (root_node, t) ← getPageT t t.root_page_num
  match root_node with
  | .leaf .. => leaf_node_find fuel t t.root_page_num key
  | .internal .. => internal_node_find fuel t t.root_page_num key
  | .uninit => .error .unspecifiedRead

/-- `table_start` (lines 386-394): `table_find(0)`, then
`end_of_table = (num_cells == 0)`. -/
def table_start (fuel : Nat) (t : Table) : Except Fatal (Cursor × Table) := do
  let (cursor, t) ← table_find fuel t 0
  let (node, t) ← getPageT t cursor.page_num
  let num_cells ← leaf_node_num_cells_read node
  .ok ({ cursor with end_of_table := num_cells = 0 }, t)

/-! ## Cursor movement (src/main.c lines 396-417) -/

/-- `cursor_value` (lines 396-401). -/
def cursor_value (t : Table) (cursor : Cursor) : Except Fatal (List Nat × Table) := do
  let (page, t) ← getPageT t cursor.page_num
  let bytes ← leaf_node_value_read page cursor.cell_num
  .ok (bytes, t)

/-- `cursor_advance` (lines 403-417): step to the next cell; past the end of
the leaf, `next_leaf == 0` means end of table, any other value (including
`INVALID_PAGE_NUM`) is followed as a page number. -/
def cursor_advance (t : Table) (cursor : Cursor) : Except Fatal (Cursor × Table) := do
  let (node, t) ← getPageT t cursor.page_num
  let cursor := { cursor with cell_num := cursor.cell_num + 1 }
  let num_cells ← leaf_node_num_cells_read node
  if cursor.cell_num ≥ num_cells then do
    let next_page_num ← leaf_node_next_leaf_read node
    if next_page_num = 0 then .ok ({ cursor with end_of_table := true }, t)
    else .ok ({ cursor with page_num := next_page_num, cell_num := 0 }, t)
  else .ok (cursor, t)

/-! ## Root creation (src/main.c lines 667-706) -/

/-- `update_internal_node_key` (lines 339-342). -/
def update_internal_node_key (fuel : Nat) (t : Table) (page_num old_key new_key : Nat) :
    Except Fatal Table := do
  let (node, t) ← getPageT t page_num
  let old_child_index ← internal_node_find_child fuel node old_key
  internal_node_key_write t page_num old_child_index new_key

/-- The re-parenting loop of `create_new_root` (lines 687-694): for each
`i < num_keys` of the (internal) left child, point its child's parent at the
left child's page.  The bound is re-read from the page each iteration, as
the C loop condition does. -/
def create_new_root_reparent : Nat → Table → Nat → Nat → Except Fatal Table
  | 0, _, _, _ => .error .outOfFuel
  | fuel + 1, t, left_child_page_num, i => do
    let (left_child, t) ← getPageT t left_child_page_num
    let num_keys ← internal_node_num_keys_read left_child
    if i < num_keys then do
      let child_page ← internal_node_child_read left_child i
      let (_, t) ← getPageT t child_page
      let t ← node_parent_write t child_page left_child_page_num
      create_new_root_reparent fuel t left_child_page_num (i + 1)
    else .ok t

/-- `create_new_root` (lines 667-706): copy the root into a freshly
allocated left child, then rebuild the root page as an internal node with
one key and the two children. -/
def create_new_root (fuel : Nat) (t : Table) (right_child_page_num : Nat) :
    Except Fatal Table := do
  let (root, t) ← getPageT t t.root_page_num
  let (_right_child, t) ← getPageT t right_child_page_num
  let (left_child_page_num, t) := get_unused_page_num t
  let (_left_child, t) ← getPageT t left_child_page_num
  let root_type ← get_node_type root
  let t ←
    if root_type = .NODE_INTERNAL then do
      let (rc, t) ← getPageT t right_child_page_num
      let t := putPageT t right_child_page_num (init_internal_node rc)
      let (lc, t) ← getPageT t left_child_page_num
      pure (putPageT t left_child_page_num (init_internal_node lc))
    else pure t
  -- memcpy(left_child, root, PAGE_SIZE); set_node_root(left_child, false)
  let (root2, t) ← getPageT t t.root_page_num
  let t := putPageT t left_child_page_num (set_node_root root2 false)
  let (left_node, t) ← getPageT t left_child_page_num
  let left_type ← get_node_type left_node
  let t ←
    if left_type = .NODE_INTERNAL then create_new_root_reparent fuel t left_child_page_num 0
    else pure t
  -- root becomes a fresh internal node with one key and two children
  let (root3, t) ← getPageT t t.root_page_num
  let t := putPageT t t.root_page_num (set_node_root (init_internal_node root3) true)
  let t ← internal_node_num_keys_write t t.root_page_num 1
  let t ← internal_node_child_write t t.root_page_num 0 left_child_page_num
  let (left_node2, t) ← getPageT t left_child_page_num
  let (left_child_max_key, t) ← get_node_max_key fuel t left_node2
  let t ← internal_node_key_write t t.root_page_num 0 left_child_max_key
  let t ← internal_node_right_child_write t t.root_page_num right_child_page_num
  let t ← node_parent_write t left_child_page_num t.root_page_num
  node_parent_write t right_child_page_num t.root_page_num

/-! ## Internal-node insertion (src/main.c lines 708-826)

`internal_node_insert` and `internal_node_split_and_insert` are mutually
recursive; every call in the group consumes one unit of fuel, which bounds
the recursion (and the short move loop of the split). -/

/-- The cell-shifting loop of `internal_node_insert` (lines 816-820):
`for (i = original_num_keys; i > index; i--) cell[i] = cell[i-1]`. -/
def internal_cells_shift (page_num index : Nat) : Nat → Table → Except Fatal Table
  | 0, t => .ok t
  | i + 1, t =>
    if i + 1 > index then do
      let (node, t) ← getPageT t page_num
      match node with
      | .internal r par nk rc cells =>
        let src := cells.getD i (0, 0)
        let t := putPageT t page_num (.internal r par nk rc (setSlot (0, 0) cells (i + 1) src))
        internal_cells_shift page_num index i t
      | _ => .error .typeConfusion
    else .ok t

mutual

/-- `internal_node_insert` (lines 776-826). -/
def internal_node_insert : Nat → Table → Nat → Nat → Except Fatal Table
  | 0, _, _, _ => .error .outOfFuel
  | fuel + 1, t, parent_page_num, child_page_num => do
    let (parent, t) ← getPageT t parent_page_num
    let (child, t) ← getPageT t child_page_num
    let (child_max_key, t) ← get_node_max_key fuel t child
    let index ← internal_node_find_child fuel parent child_max_key
    let original_num_keys ← internal_node_num_keys_read parent
    if original_num_keys ≥ INTERNAL_NODE_MAX_CELLS then
      internal_node_split_and_insert fuel t parent_page_num child_page_num
    else do
      let right_child_page_num ← internal_node_right_child_read parent
      if right_child_page_num = INVALID_PAGE_NUM then do
        -- an internal node with right child INVALID_PAGE_NUM is empty
        let t ← internal_node_right_child_write t parent_page_num child_page_num
        node_parent_write t child_page_num parent_page_num
      else do
        let (right_child, t) ← getPageT t right_child_page_num
        let t ← internal_node_num_keys_write t parent_page_num (original_num_keys + 1)
        let (rc_max, t) ← get_node_max_key fuel t right_child
        if child_max_key > rc_max then do
          -- new child becomes the right child
          let t ← internal_node_child_write t parent_page_num original_num_keys
            right_child_page_num
          let (right_child2, t) ← getPageT t right_child_page_num
          let (rc_max2, t) ← get_node_max_key fuel t right_child2
          let t ← internal_node_key_write t parent_page_num original_num_keys rc_max2
          let t ← internal_node_right_child_write t parent_page_num child_page_num
          let t ← node_parent_write t child_page_num parent_page_num
          node_parent_write t right_child_page_num parent_page_num
        else do
          let t ← internal_cells_shift parent_page_num index original_num_keys t
          let t ← internal_node_child_write t parent_page_num index child_page_num
          let t ← internal_node_key_write t parent_page_num index child_max_key
          node_parent_write t child_page_num parent_page_num

/-- The key/child move loop of `internal_node_split_and_insert`
(lines 746-754): `for (i = INTERNAL_NODE_MAX_CELLS - 1; i > INTERNAL_NODE_MAX_CELLS / 2; i--)`. -/
def internal_split_move_loop : Nat → Table → Nat → Nat → Nat → Except Fatal Table
  | 0, _, _, _, _ => .error .outOfFuel
  | fuel + 1, t, old_page_num, new_page_num, i =>
    if i > INTERNAL_NODE_MAX_CELLS / 2 then do
      let (old_node, t) ← getPageT t old_page_num
      let cur_page_num ← internal_node_child_read old_node i
      let (_cur, t) ← getPageT t cur_page_num
      let t ← internal_node_insert fuel t new_page_num cur_page_num
      let t ← node_parent_write t cur_page_num new_page_num
      let (old_node2, t) ← getPageT t old_page_num
      let nk ← internal_node_num_keys_read old_node2
      let t ← internal_node_num_keys_write t old_page_num (nk - 1)
      internal_split_move_loop fuel t old_page_num new_page_num (i - 1)
    else .ok t

/-- `internal_node_split_and_insert` (lines 708-774). -/
def internal_node_split_and_insert : Nat → Table → Nat → Nat → Except Fatal Table
  | 0, _, _, _ => .error .outOfFuel
  | fuel + 1, t, parent_page_num, child_page_num => do
    let (old_node, t) ← getPageT t parent_page_num
    let (old_max, t) ← get_node_max_key fuel t old_node
    let (child, t) ← getPageT t child_page_num
    let (child_max, t) ← get_node_max_key fuel t child
    let (new_page_num, t) := get_unused_page_num t
    let splitting_root ← is_node_root old_node
    let (parent_page, old_page_num, t) ←
      if splitting_root then do
        let t ← create_new_root fuel t new_page_num
        let (parent, t) ← getPageT t t.root_page_num
        let old2 ← internal_node_child_read parent 0
        pure (t.root_page_num, old2, t)
      else do
        let (old_node1, t) ← getPageT t parent_page_num
        let pp ← node_parent_read old_node1
        let (_parent, t) ← getPageT t pp
        let (new_node, t) ← getPageT t new_page_num
        let t := putPageT t new_page_num (init_internal_node new_node)
        pure (pp, parent_page_num, t)
    -- move the right child into the new node, invalidate old's right child
    let (old_node1, t) ← getPageT t old_page_num
    let cur_page_num ← internal_node_right_child_read old_node1
    let (_cur, t) ← getPageT t cur_page_num
    let t ← internal_node_insert fuel t new_page_num cur_page_num
    let t ← node_parent_write t cur_page_num new_page_num
    let t ← internal_node_right_child_write t old_page_num INVALID_PAGE_NUM
    -- move keys above the middle into the new node
    let t ← internal_split_move_loop fuel t old_page_num new_page_num
      (INTERNAL_NODE_MAX_CELLS - 1)
    -- promote the highest remaining child to old's right child
    let (old_node2, t) ← getPageT t old_page_num
    let nk ← internal_node_num_keys_read old_node2
    let promoted ← internal_node_child_read old_node2 (nk - 1)
    let t ← internal_node_right_child_write t old_page_num promoted
    let t ← internal_node_num_keys_write t old_page_num (nk - 1)
    -- insert the incoming child into the half that holds its range
    let (old_node3, t) ← getPageT t old_page_num
    let (max_after_split, t) ← get_node_max_key fuel t old_node3
    let destination_page_num :=
      if child_max < max_after_split then old_page_num else new_page_num
    let t ← internal_node_insert fuel t destination_page_num child_page_num
    let t ← node_parent_write t child_page_num destination_page_num
    let (old_node4, t) ← getPageT t old_page_num
    let (old_new_max, t) ← get_node_max_key fuel t old_node4
    let t ← update_internal_node_key fuel t parent_page old_max old_new_max
    if splitting_root then .ok t
    else do
      let (old_node5, t) ← getPageT t old_page_num
      let pp ← node_parent_read old_node5
      let t ← internal_node_insert fuel t pp new_page_num
      node_parent_write t new_page_num pp

end

/-! ## Leaf insertion (src/main.c lines 828-916) -/

/-- The redistribution loop of `leaf_node_split_and_insert` (lines 852-872),
iterating the source index `i` from `LEAF_NODE_MAX_CELLS` down to 0 over the
pair (old leaf cells, new leaf cells): destination node is `new` iff
`i ≥ LEAF_NODE_LEFT_SPLIT_COUNT`, destination slot is
`i % LEAF_NODE_LEFT_SPLIT_COUNT`; at `i = cell_num` the new key/row is
written, above it `old[i-1]` is copied, below it `old[i]`. -/
def leaf_split_loop (cell_num key : Nat) (value_bytes : List Nat) :
    Nat → List Cell × List Cell → List Cell × List Cell
  | 0, st => st
  | n + 1, st =>
    let i := n
    let old_cells := st.1
    let new_cells := st.2
    let index_within_node := i % LEAF_NODE_LEFT_SPLIT_COUNT
    let c : Cell :=
      if i = cell_num then (key, value_bytes)
      else if i > cell_num then old_cells.getD (i - 1) cellPad
      else old_cells.getD i cellPad
    let st' :=
      if i ≥ LEAF_NODE_LEFT_SPLIT_COUNT then
        (old_cells, setSlot cellPad new_cells index_within_node c)
      else
        (setSlot cellPad old_cells index_within_node c, new_cells)
    leaf_split_loop cell_num key value_bytes n st'

/-- Lines 833-876 of `leaf_node_split_and_insert`: allocate the new leaf,
splice it into the leaf chain (`new.next_leaf = old.next_leaf;
old.next_leaf = new_page_num`), copy the parent pointer, redistribute the
`LEAF_NODE_MAX_CELLS + 1` cells, and set both cell counts (7 and 7).
Returns the new page's number for the parent-update phase. -/
def leaf_node_split_core (t : Table) (cursor : Cursor) (key : Nat) (value : Row) :
    Except Fatal (Nat × Table) := do
  let (old, t) ← getPageT t cursor.page_num
  let old_num_cells ← leaf_node_num_cells_read old
  let (new_page_num, t) := get_unused_page_num t
  if old_num_cells ≠ LEAF_NODE_MAX_CELLS then .error .assertFailed
  else if cursor.cell_num > old_num_cells then .error .assertFailed
  else do
    let (new_page, t) ← getPageT t new_page_num
    match old with
    | .leaf old_is_root old_parent _ old_next old_cells =>
      match init_leaf_node new_page with
      | .leaf _ _ _ _ new_cells0 =>
        let st := leaf_split_loop cursor.cell_num key (serialize_row value)
          (LEAF_NODE_MAX_CELLS + 1) (old_cells, new_cells0)
        let t := putPageT t cursor.page_num
          (.leaf old_is_root old_parent LEAF_NODE_LEFT_SPLIT_COUNT new_page_num st.1)
        let t := putPageT t new_page_num
          (.leaf false old_parent LEAF_NODE_RIGHT_SPLIT_COUNT old_next st.2)
        .ok (new_page_num, t)
      | _ => .error .unspecifiedRead
    | _ => .error .typeConfusion

/-- `leaf_node_split_and_insert` (lines 828-892): the split-and-redistribute
phase (`leaf_node_split_core`), then the parent update of lines 878-891 —
a new root if the old leaf was the root, otherwise a key update plus
`internal_node_insert` into the parent. -/
def leaf_node_split_and_insert (fuel : Nat) (t : Table) (cursor : Cursor) (key : Nat)
    (value : Row) : Except Fatal Table := do
  let (old, t) ← getPageT t cursor.page_num
  let (old_max, t) ← get_node_max_key fuel t old
  let (new_page_num, t) ← leaf_node_split_core t cursor key value
  let (old2, t) ← getPageT t cursor.page_num
  let root ← is_node_root old2
  if root then create_new_root fuel t new_page_num
  else do
    let parent_page_num ← node_parent_read old2
    let (old3, t) ← getPageT t cursor.page_num
    let (new_max, t) ← get_node_max_key fuel t old3
    let (_parent, t) ← getPageT t parent_page_num
    let t ← update_internal_node_key fuel t parent_page_num old_max new_max
    internal_node_insert fuel t parent_page_num new_page_num

/-- The cell-shifting loop of `leaf_node_insert` (lines 907-911):
`for (i = num_cells; i > cell_num; i--) cell[i] = cell[i-1]`. -/
def leaf_cells_shift (cell_num : Nat) : Nat → List Cell → List Cell
  | 0, cells => cells
  | i + 1, cells =>
    if i + 1 > cell_num then
      leaf_cells_shift cell_num i (setSlot cellPad cells (i + 1) (cells.getD i cellPad))
    else cells

/-- `leaf_node_insert` (lines 894-916).  The two C `assert`s abort when
violated, modelled by `Fatal.assertFailed`. -/
def leaf_node_insert (fuel : Nat) (t : Table) (cursor : Cursor) (key : Nat) (value : Row) :
    Except Fatal Table := do
  let (node, t) ← getPageT t cursor.page_num
  match node with
  | .leaf is_root par num_cells next_leaf cells =>
    if num_cells > LEAF_NODE_MAX_CELLS then .error .assertFailed
    else if cursor.cell_num > num_cells then .error .assertFailed
    else if num_cells ≥ LEAF_NODE_MAX_CELLS then
      leaf_node_split_and_insert fuel t cursor key value
    else
      let cells :=
        if cursor.cell_num < num_cells then leaf_cells_shift cursor.cell_num num_cells cells
        else cells
      let cells := setSlot cellPad cells cursor.cell_num (key, serialize_row value)
      .ok (putPageT t cursor.page_num (.leaf is_root par (num_cells + 1) next_leaf cells))
  | _ => .error .typeConfusion

/-! ## The executor (src/main.c lines 918-962) -/

/-- `execute_insert` (lines 918-938).  The duplicate check reads `num_cells`
and `key_at_index` through the `node` pointer of line 919 — the ROOT page,
not the page the cursor landed on.  `table_find` only ever installs missing
pages, never alters the root page's contents, so re-fetching the root page
after it reads the same bytes that pointer still points at. -/
def execute_insert (fuel : Nat) (statement : Statement) (t : Table) :
    Except Fatal (ExecuteResult × Table) := do
  let (node, t) ← getPageT t t.root_page_num
  let num_cells ← leaf_node_num_cells_read node
  let row := statement.row
  let key_to_insert := row.id
  let (cursor, t) ← table_find fuel t key_to_insert
  if cursor.cell_num < num_cells then do
    let (node2, t) ← getPageT t t.root_page_num
    let key_at_index ← leaf_node_key_read node2 cursor.cell_num
    if key_at_index = key_to_insert then .ok (.EXECUTE_DUPLICATE_KEY, t)
    else do
      let t ← leaf_node_insert fuel t cursor key_to_insert row
      .ok (.EXECUTE_SUCCESS, t)
  else do
    let t ← leaf_node_insert fuel t cursor key_to_insert row
    .ok (.EXECUTE_SUCCESS, t)

/-- The scan loop of `execute_select` (lines 944-948), returning the rows
printed before the loop ends — or before a fatal error cuts the process
short, which the second component reports. -/
def execute_select_go : Nat → Table → Cursor → List Row × Except Fatal Table
  | 0, _, _ => ([], .error .outOfFuel)
  | fuel + 1, t, cursor =>
    if cursor.end_of_table then ([], .ok t)
    else
      match cursor_value t cursor with
      | .error e => ([], .error e)
      | .ok (bytes, t) =>
        let row := deserialize_row bytes
        match cursor_advance t cursor with
        | .error e => ([row], .error e)
        | .ok (cursor, t) =>
          let rest := execute_select_go fuel t cursor
          (row :: rest.1, rest.2)

/-- `execute_select` (lines 940-953): scan from `table_start`; the emitted
rows and the outcome. -/
def execute_select_run (fuel : Nat) (t : Table) : List Row × Except Fatal Table :=
  match table_start fuel t with
  | .error e => ([], .error e)
  | .ok (cursor, t) => execute_select_go fuel t cursor

/-- `execute_select` as seen by `execute_statement`: always
`EXECUTE_SUCCESS` if the scan completes. -/
def execute_select (fuel : Nat) (_statement : Statement) (t : Table) :
    Except Fatal (ExecuteResult × Table) :=
  match (execute_select_run fuel t).2 with
  | .error e => .error e
  | .ok t => .ok (.EXECUTE_SUCCESS, t)

/-- `execute_statement` (lines 955-962). -/
def execute_statement (fuel : Nat) (statement : Statement) (t : Table) :
    Except Fatal (ExecuteResult × Table) :=
  match statement.type with
  | .STATEMENT_INSERT => execute_insert fuel statement t
  | .STATEMENT_SELECT => execute_select fuel statement t

/-! ## Session scenarios (src/main.c lines 446-460, 964-1019)

`db_open` on an empty file: the pager starts with no pages on disk, so the
root page is created and initialized as an empty root leaf. -/

/-- `db_open` (lines 446-460) for a fresh (empty) database file. -/
def db_open_empty : Except Fatal Table := do
  let pager : Pager := { num_pages := 0, pages := [] }
  let t : Table := { root_page_num := 0, pager := pager }
  let (root_node, t) ← getPageT t 0
  let root_node := set_node_root (init_leaf_node root_node) true
  .ok (putPageT t 0 root_node)

/-- A row as `prepare_insert` builds it from `insert <id> u e`. -/
def mkRow (id : Nat) : Row := { id := id, username := [117], email := [101] }

/-- Run a sequence of `insert` statements, as the REPL would. -/
def run_inserts (fuel : Nat) : List Nat → Table → Except Fatal Table
  | [], t => .ok t
  | id :: ids, t => do
    let (_, t) ← execute_insert fuel { type := .STATEMENT_INSERT, row := mkRow id } t
    run_inserts fuel ids t

/-- The keys of the visible (first `num_cells`) cells of leaf page `p`. -/
def leaf_keys_at (t : Table) (p : Nat) : Option (List Nat) :=
  match pageLookup t.pager.pages p with
  | some (.leaf _ _ nc _ cells) => some ((cells.take nc).map (fun c => c.1))
  | _ => none

/-- The REPL state right after `db_open` on an empty file: one page, the
empty root leaf (with `next_leaf = INVALID_PAGE_NUM`, as `init_leaf_node`
wrote it). -/
def repl_t0 : Table :=
  { root_page_num := 0
  , pager := { num_pages := 1, pages := [(0, .leaf true 0 0 INVALID_PAGE_NUM [])] } }

def repl_s0 : Statement := { type := .STATEMENT_INSERT, row := mkRow 1 }

/-- `repl_t0` after `insert 1 u e`. -/
def repl_t1 : Table :=
  { root_page_num := 0
  , pager := { num_pages := 1
             , pages := [(0, .leaf true 0 1 INVALID_PAGE_NUM [(1, serialize_row (mkRow 1))])] } }

/-- Session for claim C1: open an empty database, `insert 1 u e`. -/
def c1_db : Except Fatal Table := do
  let t ← db_open_empty
  run_inserts 64 [1] t

/-- Session for claim C3: open an empty database, insert ids 1..14 (which
splits the root leaf: internal root at page 0, right leaf 8..14 at page 1,
left leaf 1..7 at page 2). -/
def c3_db : Except Fatal Table := do
  let t ← db_open_empty
  run_inserts 64 [1, 2, 3, 4, 5, 6, 7, 8, 9, 10, 11, 12, 13, 14] t

/-- The followup `insert 1 ...` on the split tree of `c3_db`. -/
def c3_dup_insert : Except Fatal (ExecuteResult × Table) :=
  c3_db.bind (execute_insert 64 { type := .STATEMENT_INSERT, row := mkRow 1 })

/-- A table whose page 1 is a full (13-cell) non-root leaf — the state
`leaf_node_split_and_insert` runs on.  `P` (the page the leaf's parent
pointer will later be followed to) is arbitrary: the split-and-redistribute
phase never touches it. -/
def split_input_table (P : Node) (par nxt : Nat) (old_cells : List Cell) : Table :=
  { root_page_num := 0
  , pager := { num_pages := 2
             , pages := [(0, P), (1, .leaf false par LEAF_NODE_MAX_CELLS nxt old_cells)] } }

/-- The `LEAF_NODE_MAX_CELLS + 1` logical cells of a leaf split: the old
cells with the new key and serialized row placed at the cursor position. -/
def split_logical_cells (cell_num key : Nat) (value : Row) (old_cells : List Cell) :
    List Cell :=
  old_cells.take cell_num ++ (key, serialize_row value) :: old_cells.drop cell_num

/-- The line `insertxyz 1 u e@x`. -/
def insertxyz_line : List Nat :=
  [105, 110, 115, 101, 114, 116, 120, 121, 122, 32, 49, 32, 117, 32, 101, 64, 120]

/-- The line `insert abc u e` (non-numeric id token). -/
def insert_abc_line : List Nat :=
  [105, 110, 115, 101, 114, 116, 32, 97, 98, 99, 32, 117, 32, 101]

/-- The destination shape claim C5 asserts for `leaf_node_split_core` on a
full non-root leaf at page 1 (the fresh page is 2): the old leaf keeps the
`LEAF_NODE_LEFT_SPLIT_COUNT` = 7 smallest logical cells with `num_cells = 7`
(its slots beyond 7 still hold the stale original cells, invisible behind
`num_cells`), the new leaf holds the `LEAF_NODE_RIGHT_SPLIT_COUNT` = 7
largest, and the leaf chain is spliced: `old.next_leaf = 2` and
`new.next_leaf` is the old leaf's previous `next_leaf`. -/
def split_result_correct (P : Node) (par nxt x key : Nat) (value : Row)
    (old_cells : List Cell) : Prop :=
  ∃ t', leaf_node_split_core (split_input_table P par nxt old_cells) ⟨1, x, false⟩ key value
      = .ok (2, t') ∧
    pageLookup t'.pager.pages 1 = some (.leaf false par LEAF_NODE_LEFT_SPLIT_COUNT 2
      ((split_logical_cells x key value old_cells).take LEAF_NODE_LEFT_SPLIT_COUNT
        ++ old_cells.drop LEAF_NODE_LEFT_SPLIT_COUNT)) ∧
    pageLookup t'.pager.pages 2 = some (.leaf false par LEAF_NODE_RIGHT_SPLIT_COUNT nxt
      ((split_logical_cells x key value old_cells).drop LEAF_NODE_LEFT_SPLIT_COUNT)) ∧
    t'.pager.num_pages = 3

/-- Both halves of a split are in ascending key order and every old-leaf key
is smaller than every new-leaf key. -/
def split_sorted_halves (x key : Nat) (value : Row) (old_cells : List Cell) : Prop :=
  List.Pairwise (fun a b : Cell => a.1 < b.1)
    ((split_logical_cells x key value old_cells).take LEAF_NODE_LEFT_SPLIT_COUNT) ∧
  List.Pairwise (fun a b : Cell => a.1 < b.1)
    ((split_logical_cells x key value old_cells).drop LEAF_NODE_LEFT_SPLIT_COUNT) ∧
  ∀ a ∈ (split_logical_cells x key value old_cells).take LEAF_NODE_LEFT_SPLIT_COUNT,
    ∀ b ∈ (split_logical_cells x key value old_cells).drop LEAF_NODE_LEFT_SPLIT_COUNT,
      a.1 < b.1

/-! ## Theorems -/

/-- Claim C1: the claim says a `select` after any inserts with distinct ids
emits the rows in ascending id order and the scan then terminates normally
once the leaf chain ends.  On the code this fails at the very first
non-empty scan: after `insert 1`, `execute_select` emits the one row, but
`cursor_advance` then reads `next_leaf = INVALID_PAGE_NUM` (the value
`init_leaf_node` really stores), which is nonzero, jumps the cursor to page
4294967295, and the next `cursor_value` dies in `get_page`'s out-of-bounds
check instead of ending the scan. -/
theorem select_emits_then_dies :
    c1_db.map (fun t => (execute_select_run 64 t).1) = .ok [mkRow 1] ∧
    c1_db.bind (fun t => (execute_select_run 64 t).2)
      = .error (.pageOutOfBounds INVALID_PAGE_NUM) := ⟨rfl, rfl⟩

/-- Claim C2: the claim says `init_leaf_node` leaves `next_leaf = 0` so that
advancing past the last cell of a fresh leaf sets `end_of_table`.  The code
instead stores `INVALID_PAGE_NUM` (line 356); consequently `cursor_advance`
past the last cell of the freshly initialized root leaf does not set
`end_of_table` but jumps to page `INVALID_PAGE_NUM = 4294967295`. -/
theorem init_leaf_node_next_leaf_not_zero :
    (∀ node, leaf_node_next_leaf_read (init_leaf_node node) = .ok INVALID_PAGE_NUM) ∧
    INVALID_PAGE_NUM ≠ 0 ∧
    db_open_empty.bind (fun t => (cursor_advance t ⟨0, 0, false⟩).map
        (fun p => (p.1.page_num, p.1.cell_num, p.1.end_of_table)))
      = .ok (INVALID_PAGE_NUM, 0, false) :=
  ⟨fun _ => rfl, by decide, rfl⟩

/-- Claim C3: the claim says `execute_insert` returns `DUPLICATE_KEY` iff
the leaf found by `table_find(row.id)` holds exactly `row.id` at the
cursor's `cell_num`, and otherwise inserts.  On the split tree built by
inserting 1..14, `table_find 1` lands on leaf page 2 at cell 0, whose key is
exactly 1 — yet `execute_insert` of id 1 returns `EXECUTE_SUCCESS` and
inserts a second key-1 cell, because its check reads
`leaf_node_key(root_page, 0)` on the internal root, i.e. the left child's
page number (2), and compares that against the key. -/
theorem duplicate_key_missed :
    c3_db.bind (fun t => (table_find 64 t 1).map (fun p => (p.1.page_num, p.1.cell_num)))
      = .ok (2, 0) ∧
    c3_db.map (fun t => leaf_keys_at t 2) = .ok (some [1, 2, 3, 4, 5, 6, 7]) ∧
    c3_dup_insert.map (fun p => (p.1, leaf_keys_at p.2 2))
      = .ok (.EXECUTE_SUCCESS, some [1, 1, 2, 3, 4, 5, 6, 7]) := ⟨rfl, rfl, rfl⟩

/-- Claim C4: the claim says `get_page(n)` takes the fatal out-of-bounds
branch iff `n ≥ TABLE_MAX_PAGES` (100) — in particular at `n = 100`.  The
code's guard is strict (`page_num > TABLE_MAX_PAGES`, line 222): `get_page`
succeeds exactly for `n ≤ 100`, and `get_page 100` happily installs a page
(in C, one slot past the end of the 100-entry `pages` array). -/
theorem get_page_bounds_check_off_by_one :
    (∀ pager n, (∃ r, get_page pager n = .ok r) ↔ n ≤ TABLE_MAX_PAGES) ∧
    get_page { num_pages := 0, pages := [] } 100
      = .ok (Node.uninit, { num_pages := 101, pages := [(100, Node.uninit)] }) ∧
    get_page { num_pages := 0, pages := [] } 101 = .error (.pageOutOfBounds 101) := by
  refine ⟨fun pager n => ?_, rfl, rfl⟩
  unfold get_page
  split
  · simp only [TABLE_MAX_PAGES] at *
    constructor
    · rintro ⟨r, hr⟩
      exact absurd hr (by simp)
    · omega
  · constructor
    · intro
      simp only [TABLE_MAX_PAGES] at *
      omega
    · intro
      cases pageLookup pager.pages n <;> exact ⟨_, rfl⟩

/-- Claim C6: the claim's figure of 291 bytes per serialized row is wrong —
with the NUL slots the buffers are 33 and 256 bytes, so a row occupies
`ROW_SIZE` = 4 + 33 + 256 = 293 bytes. -/
theorem row_not_291_bytes : ROW_SIZE ≠ 291 := by decide

/-- Claim C6 (amended): a serialized row occupies exactly 293 bytes — id
(4 bytes) at offset 0, username (33 bytes) at offset 4, email (256 bytes)
at offset 37 — and each leaf cell is a 4-byte key followed by this 293-byte
row, 297 bytes in all. -/
theorem row_layout_293 :
    ROW_SIZE = 293 ∧ ID_OFFSET = 0 ∧ ID_SIZE = 4 ∧ USERNAME_OFFSET = 4 ∧
    USERNAME_SIZE = 33 ∧ EMAIL_OFFSET = 37 ∧ EMAIL_SIZE = 256 ∧
    LEAF_NODE_KEY_SIZE = 4 ∧ LEAF_NODE_CELL_SIZE = 297 ∧
    ∀ row : Row, (serialize_row row).length = ROW_SIZE := by
  refine ⟨rfl, rfl, rfl, rfl, rfl, rfl, rfl, rfl, rfl, fun row => ?_⟩
  simp only [serialize_row, strncpy_bytes, ROW_SIZE, ID_SIZE, USERNAME_SIZE, EMAIL_SIZE,
    COLUMN_USERNAME_SIZE, COLUMN_EMAIL_SIZE, u32_bytes, List.length_append, List.length_take,
    List.length_replicate, List.length_cons, List.length_nil]
  omega

/-- Reading a C string stops at the zero padding `strncpy` appended. -/
theorem takeWhile_append_zero (s t : List Nat) (h : ∀ b ∈ s, b ≠ 0) :
    (s ++ 0 :: t).takeWhile (fun b => b ≠ 0) = s := by
  induction s with
  | nil => simp
  | cons a as ih =>
    have ha : a ≠ 0 := h a (by simp)
    have ih' := ih (fun b hb => h b (by simp [hb]))
    simp only [List.cons_append, List.takeWhile_cons]
    simpa [ha] using ih'

theorem strncpy_bytes_length (s : List Nat) (n : Nat) : (strncpy_bytes s n).length = n := by
  simp only [strncpy_bytes, List.length_append, List.length_take, List.length_replicate]
  omega

/-- Round trip of a string through its fixed `strncpy` buffer. -/
theorem cstring_of_strncpy (s : List Nat) (n : Nat) (hlen : s.length < n)
    (h0 : ∀ b ∈ s, b ≠ 0) : cstring_of (strncpy_bytes s n) = s := by
  unfold cstring_of strncpy_bytes
  rw [List.take_of_length_le (le_of_lt hlen)]
  have hrep : n - s.length = (n - s.length - 1) + 1 := by omega
  rw [hrep, List.replicate_succ]
  exact takeWhile_append_zero s _ h0

theorem u32_roundtrip (n : Nat) (h : n < 2 ^ 32) : u32_of_bytes (u32_bytes n) = n := by
  have h' : n < 4294967296 := by
    have e : (2 : Nat) ^ 32 = 4294967296 := by norm_num
    omega
  show n % 256 + 256 * (n / 256 % 256) + 256 ^ 2 * (n / 256 ^ 2 % 256)
      + 256 ^ 3 * (n / 256 ^ 3 % 256) = n
  have e2 : (256 : Nat) ^ 2 = 65536 := by norm_num
  have e3 : (256 : Nat) ^ 3 = 16777216 := by norm_num
  rw [e2, e3]
  omega

/-- Claim C8: a row whose username is at most 32 bytes and whose email is at
most 255 bytes (both NUL-terminated, hence 0-free) round-trips through
`serialize_row` / `deserialize_row` and the fixed 4/33/256-byte buffers. -/
theorem serialize_deserialize_row (row : Row) (hid : row.id < 2 ^ 32)
    (hu : row.username.length ≤ COLUMN_USERNAME_SIZE)
    (hu0 : ∀ b ∈ row.username, b ≠ 0)
    (he : row.email.length ≤ COLUMN_EMAIL_SIZE)
    (he0 : ∀ b ∈ row.email, b ≠ 0) :
    deserialize_row (serialize_row row) = row := by
  obtain ⟨id, username, email⟩ := row
  simp only [COLUMN_USERNAME_SIZE, COLUMN_EMAIL_SIZE] at hu he
  simp only at hu0 he0 hid
  have hI : (u32_bytes id).length = ID_SIZE := rfl
  have hIoff : (u32_bytes id).length = USERNAME_OFFSET := rfl
  have hU : (strncpy_bytes username USERNAME_SIZE).length = USERNAME_SIZE :=
    strncpy_bytes_length ..
  have hE : (strncpy_bytes email EMAIL_SIZE).length = EMAIL_SIZE := strncpy_bytes_length ..
  have hIU : (u32_bytes id ++ strncpy_bytes username USERNAME_SIZE).length = EMAIL_OFFSET := by
    rw [List.length_append, hI, hU]
    rfl
  unfold deserialize_row serialize_row
  simp only [Row.mk.injEq]
  refine ⟨?_, ?_, ?_⟩
  · rw [show ID_OFFSET = 0 from rfl, List.drop_zero, List.append_assoc, List.take_left' hI]
    exact u32_roundtrip id hid
  · rw [List.append_assoc, List.drop_left' hIoff, List.take_left' hU]
    exact cstring_of_strncpy username USERNAME_SIZE
      (by simp only [USERNAME_SIZE, COLUMN_USERNAME_SIZE]; omega) hu0
  · rw [List.drop_left' hIU, List.take_of_length_le (le_of_eq hE)]
    exact cstring_of_strncpy email EMAIL_SIZE
      (by simp only [EMAIL_SIZE, COLUMN_EMAIL_SIZE]; omega) he0

/-- Claim C8 witness: the concrete row `(7, u, e)` round-trips. -/
theorem serialize_deserialize_row_witness :
    (mkRow 7).id < 2 ^ 32 ∧ (mkRow 7).username.length ≤ COLUMN_USERNAME_SIZE ∧
    (∀ b ∈ (mkRow 7).username, b ≠ 0) ∧ (mkRow 7).email.length ≤ COLUMN_EMAIL_SIZE ∧
    (∀ b ∈ (mkRow 7).email, b ≠ 0) ∧ deserialize_row (serialize_row (mkRow 7)) = mkRow 7 :=
  ⟨by decide, by decide, by decide, by decide, by decide,
   serialize_deserialize_row (mkRow 7) (by decide) (by decide) (by decide) (by decide)
     (by decide)⟩

/-- Against a 0-free literal of its own length, `strncmp == 0` is exactly a
prefix test. -/
theorem cstrncmp_eq_iff_take (lit : List Nat) : ∀ (s : List Nat) (n : Nat),
    lit.length = n → (∀ b ∈ lit, b ≠ 0) →
    (cstrncmp_eq s lit n = true ↔ s.take n = lit) := by
  induction lit with
  | nil =>
    intro s n hlen _
    have hn : n = 0 := by simpa using hlen.symm
    subst hn
    simp [cstrncmp_eq]
  | cons b bs ih =>
    intro s n hlen hb
    obtain ⟨m, rfl⟩ : ∃ m, n = m + 1 := ⟨bs.length, by simpa using hlen.symm⟩
    have hm : bs.length = m := by simpa using hlen
    have hb0 : b ≠ 0 := hb b (by simp)
    cases s with
    | nil => simp [cstrncmp_eq]
    | cons a as =>
      by_cases hab : a = b
      · subst hab
        have := ih as m hm (fun x hx => hb x (by simp [hx]))
        simp [cstrncmp_eq, List.take_succ_cons, hb0, this]
      · simp [cstrncmp_eq, List.take_succ_cons, hab]

/-- Against a 0-free literal, `strcmp == 0` is whole-string equality. -/
theorem cstrcmp_eq_iff (lit : List Nat) : ∀ s : List Nat, (∀ b ∈ lit, b ≠ 0) →
    (cstrcmp_eq s lit = true ↔ s = lit) := by
  induction lit with
  | nil => intro s _; cases s <;> simp [cstrcmp_eq]
  | cons b bs ih =>
    intro s hb
    have hb0 : b ≠ 0 := hb b (by simp)
    cases s with
    | nil => simp [cstrcmp_eq]
    | cons a as =>
      by_cases hab : a = b
      · subst hab
        have := ih as (fun x hx => hb x (by simp [hx]))
        simp [cstrcmp_eq, hb0, this]
      · simp [cstrcmp_eq, hab]

/-- `prepare_insert` always marks its statement as an insert, so the
`select_statement` can only come out of the `select` branch. -/
theorem prepare_insert_not_select (input : List Nat) :
    (prepare_insert input).2 ≠ some select_statement := by
  unfold prepare_insert prepare_insert_tokens
  split
  · split_ifs <;> simp [select_statement]
  · simp

/-- Claim C9: `prepare_statement` classifies a line as an insert statement
whenever its first six bytes are exactly `insert` — no following separator
required, so `insertxyz 1 u e@x` is dispatched to `prepare_insert` (and in
fact parses successfully) — while the `select` branch is taken only on
whole-line equality with `select`. -/
theorem prepare_statement_prefix_dispatch (input : List Nat) :
    (cstrncmp_eq input insert_keyword 6 = true ↔ input.take 6 = insert_keyword) ∧
    (input.take 6 = insert_keyword → prepare_statement input = prepare_insert input) ∧
    ((prepare_statement input).2 = some select_statement ↔ input = select_keyword) ∧
    prepare_statement insertxyz_line = prepare_insert insertxyz_line ∧
    (prepare_statement insertxyz_line).1 = .PREPARE_SUCCESS := by
  have hpre := cstrncmp_eq_iff_take insert_keyword input 6 rfl (by decide)
  have hsel := cstrcmp_eq_iff select_keyword input (by decide)
  refine ⟨hpre, ?_, ?_, rfl, rfl⟩
  · intro h
    unfold prepare_statement
    rw [if_pos (hpre.mpr h)]
  · constructor
    · intro h
      unfold prepare_statement at h
      by_cases hins : cstrncmp_eq input insert_keyword 6 = true
      · rw [if_pos hins] at h
        exact absurd h (prepare_insert_not_select input)
      · rw [if_neg hins] at h
        by_cases hs : cstrcmp_eq input select_keyword = true
        · exact hsel.mp hs
        · rw [if_neg hs] at h
          simp at h
    · intro h
      subst h
      rfl

/-- Claim C9 witness: the `insertxyz ...` line is prefix-classified and
dispatched to `prepare_insert`. -/
theorem prepare_statement_prefix_dispatch_witness :
    insertxyz_line.take 6 = insert_keyword ∧
    prepare_statement insertxyz_line = prepare_insert insertxyz_line :=
  ⟨by decide, (prepare_statement_prefix_dispatch insertxyz_line).2.1 (by decide)⟩

/-- Claim C10: `prepare_insert` converts the id token with `atoi` and
rejects only strictly negative values: with four tokens present,
`PREPARE_NEGATIVE_ID` appears iff `atoi` of the id token is negative; any
non-negative `atoi` value — including the 0 produced by the token `0` or by
a non-numeric token — is accepted into the row id (subject only to the
later length checks); with fewer tokens the result is a syntax error, never
`PREPARE_NEGATIVE_ID`. -/
theorem prepare_insert_negative_only (input kw t1 t2 t3 : List Nat)
    (rest : List (List Nat)) (htok : strtok_tokens input = kw :: t1 :: t2 :: t3 :: rest) :
    ((prepare_insert input).1 = .PREPARE_NEGATIVE_ID ↔ atoi_c t1 < 0) ∧
    (0 ≤ atoi_c t1 → t2.length ≤ COLUMN_USERNAME_SIZE → t3.length ≤ COLUMN_EMAIL_SIZE →
      prepare_insert input = (.PREPARE_SUCCESS, some
        { type := .STATEMENT_INSERT
        , row := { id := (atoi_c t1).toNat, username := t2, email := t3 } })) ∧
    (∀ input', (strtok_tokens input').length < 4 →
      prepare_insert input' = (.PREPARE_SYNTAX_ERROR, none)) := by
  refine ⟨?_, ?_, ?_⟩
  · unfold prepare_insert
    rw [htok]
    simp only [prepare_insert_tokens]
    rcases lt_or_le (atoi_c t1) 0 with h | h
    · simp [h]
    · rw [if_neg (not_lt.mpr h)]
      split_ifs <;> simp <;> omega
  · intro h0 hu he
    unfold prepare_insert
    rw [htok]
    simp only [prepare_insert_tokens]
    rw [if_neg (not_lt.mpr h0), if_neg (not_lt.mpr hu), if_neg (not_lt.mpr he)]
  · intro input' hlt
    unfold prepare_insert prepare_insert_tokens
    split
    · next kw' t1' t2' t3' rest' heq =>
      rw [heq] at hlt
      simp only [List.length_cons] at hlt
      omega
    · rfl

/-- Claim C10 witness: `insert abc u e` — a non-numeric id token — is
accepted with row id 0. -/
theorem prepare_insert_negative_only_witness :
    strtok_tokens insert_abc_line
      = [[105, 110, 115, 101, 114, 116], [97, 98, 99], [117], [101]] ∧
    atoi_c [97, 98, 99] = 0 ∧
    prepare_insert insert_abc_line = (.PREPARE_SUCCESS, some
      { type := .STATEMENT_INSERT, row := { id := 0, username := [117], email := [101] } }) := by
  refine ⟨by decide, by decide, ?_⟩
  exact (prepare_insert_negative_only insert_abc_line
    [105, 110, 115, 101, 114, 116] [97, 98, 99] [117] [101] [] (by decide)).2.1
    (by decide) (by decide) (by decide)

/-- Destructing a successful `Except` bind. -/
theorem except_bind_ok {ε α β : Type} {e : Except ε α} {f : α → Except ε β} {b : β}
    (h : e >>= f = .ok b) : ∃ a, e = .ok a ∧ f a = .ok b := by
  cases e with
  | error err => simp [Bind.bind, Except.bind] at h
  | ok a => exact ⟨a, rfl, by simpa [Bind.bind, Except.bind] using h⟩

/-- Claim C7: the executor can never answer `EXECUTE_TABLE_FULL` — whatever
the statement, the table state and the fuel, a completed `execute_statement`
returns `EXECUTE_SUCCESS` or `EXECUTE_DUPLICATE_KEY` (the enum value is kept
only because the interface exposes it), so `Error: Table is full` is never
printed. -/
theorem executor_never_table_full (fuel : Nat) (statement : Statement) (t : Table)
    (result : ExecuteResult) (t' : Table)
    (h : execute_statement fuel statement t = .ok (result, t')) :
    result ≠ .EXECUTE_TABLE_FULL := by
  unfold execute_statement at h
  cases hst : statement.type with
  | STATEMENT_SELECT =>
    rw [hst] at h
    unfold execute_select at h
    cases hr : (execute_select_run fuel t).2 with
    | error e =>
      rw [hr] at h
      exact absurd h (by simp)
    | ok t2 =>
      rw [hr] at h
      simp only [Except.ok.injEq, Prod.mk.injEq] at h
      rw [← h.1]
      simp
  | STATEMENT_INSERT =>
    rw [hst] at h
    unfold execute_insert at h
    obtain ⟨⟨node, t1⟩, h1, h⟩ := except_bind_ok h
    obtain ⟨nc, h2, h⟩ := except_bind_ok h
    obtain ⟨⟨cursor, t2⟩, h3, h⟩ := except_bind_ok h
    dsimp only at h
    by_cases hc : cursor.cell_num < nc
    · rw [if_pos hc] at h
      obtain ⟨⟨node2, t3⟩, h4, h⟩ := except_bind_ok h
      dsimp only at h
      obtain ⟨keyat, h5, h⟩ := except_bind_ok h
      by_cases hk : keyat = statement.row.id
      · rw [if_pos hk] at h
        simp only [Except.ok.injEq, Prod.mk.injEq] at h
        rw [← h.1]
        simp
      · rw [if_neg hk] at h
        obtain ⟨t4, h6, h⟩ := except_bind_ok h
        simp only [Except.ok.injEq, Prod.mk.injEq] at h
        rw [← h.1]
        simp
    · rw [if_neg hc] at h
      obtain ⟨t4, h6, h⟩ := except_bind_ok h
      simp only [Except.ok.injEq, Prod.mk.injEq] at h
      rw [← h.1]
      simp

/-- Claim C7 witness: a concrete completed statement (`insert 1 u e` on the
fresh table) whose result the theorem then separates from
`EXECUTE_TABLE_FULL`. -/
theorem executor_never_table_full_witness :
    execute_statement 64 repl_s0 repl_t0 = .ok (.EXECUTE_SUCCESS, repl_t1) ∧
    ExecuteResult.EXECUTE_SUCCESS ≠ .EXECUTE_TABLE_FULL :=
  ⟨rfl, executor_never_table_full 64 repl_s0 repl_t0 .EXECUTE_SUCCESS repl_t1 rfl⟩

set_option maxHeartbeats 1000000

/-- Claim C5: `leaf_node_split_and_insert` on a full leaf (13 cells) whose
14 logical cells (the originals with the new key/row at the cursor's
position) are in ascending key order redistributes them 7/7: afterwards the
old leaf holds exactly the 7 smallest cells with `num_cells = 7`, the new
leaf exactly the 7 largest with `num_cells = 7`, each half ascending, every
old key below every new key, and the chain is spliced —
`new.next_leaf` = the old leaf's previous `next_leaf`, `old.next_leaf` = the
new page's number.  (This is the split-and-redistribute phase, lines
833-876; the subsequent lines 878-891 only rewire parents.) -/
theorem leaf_split_redistribution (P : Node) (par nxt x key : Nat) (value : Row)
    (c0 c1 c2 c3 c4 c5 c6 c7 c8 c9 c10 c11 c12 : Cell)
    (hx : x ≤ LEAF_NODE_MAX_CELLS)
    (hL : List.Pairwise (fun a b : Cell => a.1 < b.1)
      (split_logical_cells x key value
        [c0, c1, c2, c3, c4, c5, c6, c7, c8, c9, c10, c11, c12])) :
    split_result_correct P par nxt x key value
      [c0, c1, c2, c3, c4, c5, c6, c7, c8, c9, c10, c11, c12] ∧
    split_sorted_halves x key value
      [c0, c1, c2, c3, c4, c5, c6, c7, c8, c9, c10, c11, c12] := by
  constructor
  · have hx13 : x ≤ 13 := hx
    clear hL hx
    unfold split_result_correct
    interval_cases x <;> exact ⟨_, rfl, rfl, rfl, rfl⟩
  · unfold split_sorted_halves
    rw [← List.take_append_drop LEAF_NODE_LEFT_SPLIT_COUNT
      (split_logical_cells x key value
        [c0, c1, c2, c3, c4, c5, c6, c7, c8, c9, c10, c11, c12])] at hL
    exact List.pairwise_append.mp hL

/-- Claim C5 witness: a concrete full leaf with keys 10, 20, ..., 130 and
new key 500 at cursor position 13. -/
theorem leaf_split_redistribution_witness :
    (13 : Nat) ≤ LEAF_NODE_MAX_CELLS ∧
    List.Pairwise (fun a b : Cell => a.1 < b.1)
      (split_logical_cells 13 500 (mkRow 500)
        [(10, []), (20, []), (30, []), (40, []), (50, []), (60, []), (70, []),
         (80, []), (90, []), (100, []), (110, []), (120, []), (130, [])]) ∧
    split_result_correct Node.uninit 7 0 13 500 (mkRow 500)
      [(10, []), (20, []), (30, []), (40, []), (50, []), (60, []), (70, []),
       (80, []), (90, []), (100, []), (110, []), (120, []), (130, [])] ∧
    split_sorted_halves 13 500 (mkRow 500)
      [(10, []), (20, []), (30, []), (40, []), (50, []), (60, []), (70, []),
       (80, []), (90, []), (100, []), (110, []), (120, []), (130, [])] :=
  ⟨by decide, by decide,
   leaf_split_redistribution Node.uninit 7 0 13 500 (mkRow 500)
     (10, []) (20, []) (30, []) (40, []) (50, []) (60, []) (70, [])
     (80, []) (90, []) (100, []) (110, []) (120, []) (130, [])
     (by decide) (by decide)⟩
